import Mathlib

/-!
Verification of the query-orchestration pipeline of the Korean traffic-accident
consultation engine (`main/services/optimized_ai_bot.py`).

The Python source is shallowly embedded: strings are Lean `String`
(Python `len`/slicing operate on code points, matched here by `List Char`
operations on `String.data`), Python `in` on strings is substring
containment, dictionaries are association lists in insertion order, and the
external effectful collaborators (OpenAI fine-tuned classifier, vector store,
self-query retriever, chat model) are oracles returning `Except Unit`.
Python `hash` used for cache keys and result de-duplication is modelled as
injective (the hashed data itself is the key).  Regex character classes
`\d` / `\s` are modelled as ASCII digits / whitespace, which is what the
repository's data contains.
-/

namespace OptimizedAiBot

/-- Model of Python `len` on a string (number of code points). -/
def strLen (s : String) : Nat := s.data.length

/-- Model of Python slicing `s[:n]` (prefix of code points). -/
def strTake (s : String) (n : Nat) : String := ⟨s.data.take n⟩

/-- Model of Python `str.lower` (which is the identity on hangul and digits). -/
def strLower (s : String) : String := ⟨s.data.map Char.toLower⟩

/-- Model of Python `str.strip`: drop leading and trailing whitespace. -/
def strStrip (s : String) : String :=
  ⟨((s.data.dropWhile Char.isWhitespace).reverse.dropWhile Char.isWhitespace).reverse⟩

/-- Boolean infix test on character lists, modelling Python `needle in hay`. -/
def infixB (xs : List Char) : List Char → Bool
  | [] => xs.isPrefixOf []
  | y :: ys => xs.isPrefixOf (y :: ys) || infixB xs ys

/-- Model of the Python substring test `needle in hay` on strings. -/
def substrB (needle hay : String) : Bool := infixB needle.data hay.data

/-- Boolean prefix test on strings, modelling Python `str.startswith`. -/
def strStartsWith (p s : String) : Bool := p.data.isPrefixOf s.data

/-!  ## FastClassifier  -/

/-- Keyword tiers of one category of `FastClassifier.keyword_patterns`. -/
structure KeywordPattern where
  high : List String
  medium : List String
  low : List String

/-- The `FastClassifier.keyword_patterns` table, in dict insertion order. -/
def keywordPatterns : List (String × KeywordPattern) :=
  [("accident",
    { high := ["사고", "충돌", "접촉", "과실비율", "과실", "비율"],
      medium := ["교차로", "신호", "좌회전", "우회전", "직진", "후진", "주차"],
      low := ["차량", "자동차", "운전", "도로", "A차량", "B차량"] }),
   ("precedent",
    { high := ["판례", "대법원", "고등법원", "지방법원", "사건번호"],
      medium := ["법원", "재판", "소송", "결정", "고법", "지방법원", "고등법원", "관련된", "관련", "찾아", "검색"],
      low := ["사건", "결과", "20", "19", "수원", "서울", "부산", "이와", "해당"] }),
   ("law",
    { high := ["도로교통법", "법률", "조문", "법령"],
      medium := ["제", "조", "항", "규정", "위반"],
      low := ["법", "규칙", "처벌"] }),
   ("term",
    { high := ["정의", "의미", "뜻", "설명", "무엇"],
      medium := ["용어", "개념", "말"],
      low := ["이란", "라는"] })]

/-- Weighted score of one category: 3 per high keyword present, 2 per medium,
1 per low (`FastClassifier._calculate_keyword_scores`, inner loops). -/
def patternScore (p : KeywordPattern) (input : String) : Nat :=
  3 * p.high.countP (fun k => substrB k input)
    + 2 * p.medium.countP (fun k => substrB k input)
    + 1 * p.low.countP (fun k => substrB k input)

/-- Model of `FastClassifier._calculate_keyword_scores`: association list of the
categories with positive score, in table order (= dict insertion order). -/
def calculateKeywordScores (input : String) : List (String × Nat) :=
  keywordPatterns.filterMap fun p =>
    let s := patternScore p.2 input
    if 0 < s then some (p.1, s) else none

/-- Model of Python `max(scores, key=scores.get)`: the first entry with maximal
score (Python `max` keeps the earlier element on ties). -/
def pyMax : List (String × Nat) → Option (String × Nat)
  | [] => none
  | x :: xs => some (xs.foldl (fun acc p => if acc.2 < p.2 then p else acc) x)

/-- The closed category set of the pipeline (`valid_categories` in
`FastClassifier._classify_with_finetuned_model`). -/
def validCategories : List String := ["accident", "precedent", "law", "term", "general"]

/-- Environment of `FastClassifier`: whether `FINETUNED_MODEL_ID` is set, and
the remote fine-tuned model as an oracle that may fail. -/
structure ClassifierEnv where
  configured : Bool
  remote : String → Except Unit String

/-- Python `confidence >= 0.65` where `confidence = max_score / total` if
`total > 0` else `0`, expressed exactly over the integer scores
(`13 / 20 = 0.65`; the float comparison agrees with the rational one on these
small integer ratios). -/
def confidenceHigh (maxScore total : Nat) : Prop := 0 < total ∧ 13 * total ≤ 20 * maxScore

instance (m t : Nat) : Decidable (confidenceHigh m t) := by
  unfold confidenceHigh; infer_instance

/-- Tail of `FastClassifier.classify`: the fine-tuned-model stage and the final
fallback.  Returns the category together with the number of remote calls made.
A remote exception is caught and downgraded to the `general` fallback;
an off-enum remote answer is replaced by `general`
(`FastClassifier._classify_with_finetuned_model`). -/
def remoteStage (env : ClassifierEnv) (userInput : String) : String × Nat :=
  if env.configured = true ∧ 10 < strLen (strStrip userInput) then
    match env.remote userInput with
    | .ok s =>
        let c := strLower (strStrip s)
        (if c ∈ validCategories then c else "general", 1)
    | .error _ => ("general", 1)
  else ("general", 0)

/-- Model of `FastClassifier.classify`.  Returns the category and the number of
remote fine-tuned-model calls performed.  When any keyword scored, the two
confidence branches are exhaustive, so the remote stage is only reachable with
an empty score table (mirroring the Python control flow, where both `if`s
`return`). -/
def classify (env : ClassifierEnv) (userInput : String) : String × Nat :=
  let scores := calculateKeywordScores (strLower userInput)
  match pyMax scores with
  | some best =>
      let maxScore := best.2
      let total := (scores.map Prod.snd).sum
      if confidenceHigh maxScore total ∧ 4 ≤ maxScore then (best.1, 0)
      else if ¬ confidenceHigh maxScore total ∨ maxScore < 4 then ("general", 0)
      else remoteStage env userInput
  | none => remoteStage env userInput

/-- The `context_keywords` table of `FastClassifier.classify_with_context`. -/
def contextKeywords : List (String × List String) :=
  [("accident", ["관련", "이것", "이거", "해당", "위"]),
   ("precedent", ["관련", "이것", "이거", "해당", "위", "찾아", "검색"]),
   ("law", ["관련", "이것", "이거", "해당", "위"]),
   ("term", ["관련", "이것", "이거", "해당", "위"])]

/-- Model of `FastClassifier.classify_with_context`: the context-carry rule is
applied only after `classify` already returned `general`, and no extra remote
call is made by it. -/
def classifyWithContext (env : ClassifierEnv) (userInput : String)
    (previousCategory : Option String) : String × Nat :=
  let primary := classify env userInput
  match previousCategory with
  | some p =>
      if primary.1 = "general" ∧ p ≠ "" then
        match contextKeywords.lookup p with
        | some kws =>
            let contextScore := 2 * kws.countP (fun k => substrB k (strLower userInput))
            if 2 ≤ contextScore then (p, primary.2) else primary
        | none => primary
      else primary
  | none => primary

/-!  ## HybridRAGSystem  -/

/-- A langchain `Document`: page content plus string metadata. -/
structure Doc where
  pageContent : String
  metadata : List (String × String)
deriving DecidableEq

/-- Model of Python `metadata.get(key, default)`. -/
def metaGet (md : List (String × String)) (key dflt : String) : String :=
  (md.lookup key).getD dflt

/-- The chamber-letter character class `[다가나도마바사아자차카타파하]` of the
case-number regexes. -/
def chamberChars : List Char :=
  ['다', '가', '나', '도', '마', '바', '사', '아', '자', '차', '카', '타', '파', '하']

/-- Match `\d{k}[chamber]\d+` at the start of `s`, returning the matched text.
`\d+` is greedy, and `\d{k}` is fixed-width, so the match at a position is
deterministic. -/
def matchCoreWith (k : Nat) (s : List Char) : Option (List Char) :=
  let ds := s.take k
  if ds.length = k ∧ ds.all Char.isDigit then
    match s.drop k with
    | c :: rest =>
        if chamberChars.contains c then
          match rest.takeWhile Char.isDigit with
          | [] => none
          | t => some (ds ++ c :: t)
        else none
    | [] => none
  else none

/-- Match the bare case-number pattern `\d{2,4}[chamber]\d+` at the start of
`s`; the greedy counted repetition tries 4 digits first, then 3, then 2. -/
def matchCoreAt (s : List Char) : Option (List Char) :=
  ((matchCoreWith 4 s).orElse fun _ => matchCoreWith 3 s).orElse fun _ => matchCoreWith 2 s

/-- Model of `re.search` with the bare pattern `(\d{2,4}[chamber]\d+)`:
leftmost match wins. -/
def searchCore : List Char → Option (List Char)
  | [] => none
  | c :: rest => (matchCoreAt (c :: rest)).orElse fun _ => searchCore rest

/-- Match `court\s*\d{4}[chamber]\d+` at the start of `s`.  `\s*` is greedy and
disjoint from `\d`, so no backtracking is possible. -/
def matchCourtAt (court : List Char) (s : List Char) : Option (List Char) :=
  if s.take court.length = court then
    let rest := s.drop court.length
    let ws := rest.takeWhile Char.isWhitespace
    let rest2 := rest.dropWhile Char.isWhitespace
    match matchCoreWith 4 rest2 with
    | some core => some (court ++ ws ++ core)
    | none => none
  else none

/-- Model of `re.search` with one court-prefixed pattern: leftmost match wins. -/
def searchCourt (court : List Char) : List Char → Option (List Char)
  | [] => matchCourtAt court []
  | c :: rest => (matchCourtAt court (c :: rest)).orElse fun _ => searchCourt court rest

/-- The court names of the first five patterns of
`HybridRAGSystem._extract_case_number`, in order. -/
def courtNames : List String :=
  ["대법원", "서울고법", "서울고등법원", "서울중앙지방법원", "서울지방법원"]

/-- Model of `HybridRAGSystem._extract_case_number`: try the five
court-prefixed patterns in order, then the bare pattern; the first `re.search`
hit is stripped and returned. -/
def extractCaseNumber (query : String) : Option String :=
  let cs := query.data
  match courtNames.findSome? (fun c => searchCourt c.data cs) with
  | some m => some (strStrip ⟨m⟩)
  | none =>
      match searchCore cs with
      | some m => some (strStrip ⟨m⟩)
      | none => none

/-- Model of `re.sub(r'\s+', '', x.lower())` used by
`HybridRAGSystem._is_exact_case_match`. -/
def cleanCase (s : String) : String := ⟨(strLower s).data.filter (fun c => !c.isWhitespace)⟩

/-- Model of `HybridRAGSystem._is_exact_case_match`: empty inputs never match;
otherwise the whitespace-stripped lowercased forms must be equal or one must
contain the other. -/
def isExactCaseMatch (inputCase dbCase : String) : Bool :=
  if inputCase == "" || dbCase == "" then false
  else
    let ic := cleanCase inputCase
    let dc := cleanCase dbCase
    if ic == dc then true
    else if infixB ic.data dc.data || infixB dc.data ic.data then true
    else false

/-- Model of `HybridRAGSystem._is_partial_case_match`: extract the
`\d{2,4}[chamber]\d+` core from both citations and compare them
case-insensitively for equality. -/
def isPartialCaseMatch (inputCase dbCase : String) : Bool :=
  if inputCase == "" || dbCase == "" then false
  else
    match searchCore inputCase.data, searchCore dbCase.data with
    | some ic, some dc => ic.map Char.toLower == dc.map Char.toLower
    | _, _ => false

/-- Model of `HybridRAGSystem._format_exact_precedent_result`. -/
def formatExactPrecedentResult (d : Doc) (searchedCase : String) (isExact : Bool) : String :=
  let content := strTake d.pageContent 500
  let caseId := metaGet d.metadata "case_id" searchedCase
  let court := metaGet d.metadata "court" "미상"
  let matchType := if isExact then "정확한 매칭" else "부분 매칭"
  let r := "✅ **판례 검색 성공** (" ++ matchType ++ ")\n\n"
    ++ "📝 **판례 정보:**\n"
    ++ "- 사건번호: " ++ caseId ++ "\n"
    ++ "- 법원: " ++ court ++ "\n\n"
    ++ "📜 **판례 내용:**\n" ++ content ++ "\n\n"
  if !isExact then
    r ++ "📝 **매칭 안내:** 입력하신 \x27" ++ searchedCase ++ "\x27와 유사한 판례입니다.\n"
  else r

/-- Environment of `HybridRAGSystem`: the vector store
(`search_similar_documents(query, collection_name, k)`) and the self-query
retriever (creation plus `get_relevant_documents`, collapsed into one oracle
keyed by category and query).  Failures model raised exceptions, a missing
vector store and a `None` result alike. -/
structure RagEnv where
  vdbSearch : String → String → Nat → Except Unit (List Doc)
  selfQuery : String → String → Except Unit (List Doc)

/-- Model of `HybridRAGSystem._search_exact_precedent`: pull up to 10
candidates for the citation from the `precedent` collection and classify them
into exact and partial matches; any exception yields `None`. -/
def searchExactPrecedent (env : RagEnv) (caseNumber _origQuery : String) : Option String :=
  match env.vdbSearch caseNumber "precedent" 10 with
  | .error _ => none
  | .ok docs =>
      if docs.isEmpty then none
      else
        let exacts := docs.filter fun d =>
          isExactCaseMatch caseNumber (strStrip (metaGet d.metadata "case_id" ""))
        let partials := docs.filter fun d =>
          let dbId := strStrip (metaGet d.metadata "case_id" "")
          !isExactCaseMatch caseNumber dbId && isPartialCaseMatch caseNumber dbId
        match exacts with
        | d :: _ => some (formatExactPrecedentResult d caseNumber true)
        | [] =>
            match partials with
            | d :: _ => some (formatExactPrecedentResult d caseNumber false)
            | [] => none

/-- The `HybridRAGSystem.collection_mapping` dict. -/
def collectionMapping : List (String × String) :=
  [("accident", "car_case"), ("precedent", "precedent"), ("law", "law"), ("term", "term")]

/-- The `VectorDBManager.COLLECTIONS` dict. -/
def COLLECTIONS : List (String × String) :=
  [("term", "term"), ("law", "traffic_law_rag"), ("car_case", "car_case"),
   ("precedent", "precedent")]

/-- Model of `HybridRAGSystem._direct_search`: resolve the collection for the
category and fetch `2 * max_docs` documents; unknown categories and store
errors yield `[]`. -/
def directSearch (env : RagEnv) (query category : String) (maxDocs : Nat) : List Doc :=
  match collectionMapping.lookup category with
  | none => []
  | some key =>
      let collectionName := (COLLECTIONS.lookup key).getD key
      match env.vdbSearch query collectionName (maxDocs * 2) with
      | .ok docs => docs
      | .error _ => []

/-- The `self_query_triggers` table of `HybridRAGSystem._should_use_self_query`. -/
def selfQueryTriggers : List (String × List String) :=
  [("precedent", ["대법원", "고등법원", "지방법원", "법원", "20", "19", "연도", "년도"]),
   ("law", ["제", "조", "항", "번호", "신호", "교차로", "안전", "운전"]),
   ("accident", ["A차량", "B차량", "비율", "과실", "좌회전", "직진", "교차로", "신호"]),
   ("term", ["정의", "의미", "개념", "용어"])]

/-- Number of category triggers occurring in the query
(`trigger_count` in `HybridRAGSystem._should_use_self_query`). -/
def triggerCount (query category : String) : Nat :=
  ((selfQueryTriggers.lookup category).getD []).countP (fun t => substrB t query)

/-- Model of `HybridRAGSystem._should_use_self_query`. -/
def shouldUseSelfQuery (query category : String) : Bool :=
  decide (2 ≤ triggerCount query category) || decide (30 < strLen query)

/-- Model of `HybridRAGSystem._self_query_search`: run the self-query retriever
and keep at most `max_docs` documents; a missing retriever or any exception
yields `[]`. -/
def selfQuerySearch (env : RagEnv) (query category : String) (maxDocs : Nat) : List Doc :=
  match env.selfQuery category query with
  | .ok docs => docs.take maxDocs
  | .error _ => []

/-- De-duplication loop of `HybridRAGSystem._combine_search_results`: keep a
document only when the (injectively modelled) hash of the first 100 characters
of its content was not seen before. -/
def dedupByKey (seen : List String) : List Doc → List Doc
  | [] => []
  | d :: ds =>
      let key := strTake d.pageContent 100
      if seen.contains key then dedupByKey seen ds
      else d :: dedupByKey (key :: seen) ds

/-- Model of `HybridRAGSystem._combine_search_results`: self-query results
first, then direct results, de-duplicated with a shared seen set. -/
def combineSearchResults (directResults selfQueryResults : List Doc) : List Doc :=
  dedupByKey [] (selfQueryResults ++ directResults)

/-- Model of `HybridRAGSystem._format_metadata`. -/
def formatMetadata (md : List (String × String)) (category : String) : String :=
  if category = "accident" then
    let caseId := metaGet md "사건 ID" ""
    let ratio := metaGet md "기본 과실비율" ""
    if caseId ≠ "" then "사건: " ++ caseId ++ ", 비율: " ++ ratio else ""
  else if category = "precedent" then
    let caseId := metaGet md "case_id" ""
    let court := metaGet md "court" ""
    if caseId ≠ "" then "판례: " ++ caseId ++ ", 법원: " ++ court else ""
  else if category = "law" then
    let article := metaGet md "title" ""
    if article ≠ "" then "조문: " ++ article else ""
  else if category = "term" then
    let term := metaGet md "term" ""
    if term ≠ "" then "용어: " ++ term else ""
  else ""

/-- One numbered snippet of `HybridRAGSystem._format_search_results`
(index `i` is 1-based, content truncated to 200 characters). -/
def snippetLine (i : Nat) (d : Doc) (category : String) : String :=
  "[" ++ toString i ++ "] " ++ strTake d.pageContent 200 ++ "\n" ++ formatMetadata d.metadata category

/-- The snippet list built by `HybridRAGSystem._format_search_results`:
at most the first 3 documents are used. -/
def formatParts (docs : List Doc) (category : String) : List String :=
  (docs.take 3).enum.map fun p => snippetLine (p.1 + 1) p.2 category

/-- Model of `HybridRAGSystem._format_search_results`. -/
def formatSearchResults (docs : List Doc) (category : String) : String :=
  if docs.isEmpty then "" else String.intercalate "\n" (formatParts docs category)

/-- Model of `HybridRAGSystem._hybrid_search`.  The second component records
whether the self-query branch was used.  A self-query failure still merges the
empty self-query result with the direct results (the exception is caught
inside `_self_query_search`). -/
def hybridSearch (env : RagEnv) (query category : String) (maxDocs : Nat) : String × Bool :=
  let directResults := directSearch env query category maxDocs
  if shouldUseSelfQuery query category then
    let selfQueryResults := selfQuerySearch env query category maxDocs
    let combined := combineSearchResults directResults selfQueryResults
    if combined.isEmpty then
      (if directResults.isEmpty then "" else formatSearchResults directResults category, true)
    else (formatSearchResults combined category, true)
  else
    (if directResults.isEmpty then "" else formatSearchResults directResults category, false)

/-- The per-query result cache `HybridRAGSystem._search_cache`:
`(category, query) → formatted context`, with `hash(query)` modelled as
injective. -/
abbrev Cache : Type := List ((String × String) × String)

/-- Cache-and-search tail of `HybridRAGSystem.search_context` (everything after
the precedent gate): cache lookup, hybrid search, and the bounded store which
only inserts while fewer than 100 entries are cached. -/
def searchContextMain (env : RagEnv) (cache : Cache) (query category : String)
    (maxDocs : Nat) : String × Cache :=
  let key := (category, query)
  match List.lookup key cache with
  | some v => (v, cache)
  | none =>
      let hybridResult := (hybridSearch env query category maxDocs).1
      if hybridResult = "" then ("", cache)
      else if List.length cache < 100 then (hybridResult, cache ++ [(key, hybridResult)])
      else (hybridResult, cache)

/-- Model of `HybridRAGSystem.search_context`: for the `precedent` category
with a detected case number, the gate returns an exact/partial match block or
the `EXACT_PRECEDENT_NOT_FOUND` sentinel before the cache is ever consulted. -/
def searchContext (env : RagEnv) (cache : Cache) (query category : String)
    (maxDocs : Nat) : String × Cache :=
  if category = "precedent" then
    match extractCaseNumber query with
    | some caseNumber =>
        match searchExactPrecedent env caseNumber query with
        | some r => (r, cache)
        | none => ("EXACT_PRECEDENT_NOT_FOUND: " ++ caseNumber, cache)
    | none => searchContextMain env cache query category maxDocs
  else searchContextMain env cache query category maxDocs

/-!  ## OptimizedTrafficAccidentBot  -/

/-- Model of `OptimizedTrafficAccidentBot._generate_quick_fallback_response`
(no chat-model call; `context` is accepted but unused, as in the source). -/
def quickFallbackResponse (userInput category _context : String) : String :=
  let head := strTake userInput 50
  if category = "accident" then
    "사고 상황: \"" ++ head ++ "...\"\n\n현재 일시적으로 AI 응답 생성에 문제가 있습니다.\n\n기본 안내:\n- 교차로 사고의 경우 좌회전 차량의 과실비율이 높습니다\n- 신호위반, 과속 등에 따라 비율이 조정됩니다\n- 정확한 분석을 위해 상황을 더 자세히 말씀해 주세요\n\n잠시 후 다시 시도해주세요."
  else if category = "precedent" then
    "판례 검색: \"" ++ head ++ "...\"\n\n현재 일시적으로 AI 응답 생성에 문제가 있습니다.\n\n기본 안내:\n- 사건번호를 정확하게 입력해주세요 (예: 대법원 2019다12345)\n- 교통사고 관련 판례는 대법원, 고등법원에서 확인 가능합니다\n- 판례는 비슷한 사안의 참고 자료로 활용합니다\n\n잠시 후 다시 시도해주세요."
  else if category = "law" then
    "법률 조회: \"" ++ head ++ "...\"\n\n현재 일시적으로 AI 응답 생성에 문제가 있습니다.\n\n기본 안내:\n- 도로교통법은 교통안전을 위한 기본 법률입니다\n- 조문 번호를 정확하게 입력해주세요 (예: 제5조, 제25조)\n- 신호위반, 과속, 음주운전 등에 대한 처벌 규정이 있습니다\n\n잠시 후 다시 시도해주세요."
  else if category = "term" then
    "용어 설명: \"" ++ head ++ "...\"\n\n현재 일시적으로 AI 응답 생성에 문제가 있습니다.\n\n기본 안내:\n- 과실비율: 사고 책임의 비율(퍼센트)\n- 도로: 차량이 다니는 모든 길\n- 차도: 도로에서 차량이 다니는 부분\n- 획단보도: 보행자가 도로를 건너는 곳\n\n잠시 후 다시 시도해주세요."
  else
    "일반 상담: \"" ++ head ++ "...\"\n\n현재 일시적으로 AI 응답 생성에 문제가 있습니다.\n\n기본 안내:\n- 교통사고 과실비율 분석\n- 도로교통법 조회\n- 판례 검색\n- 법률 용어 설명\n\n잠시 후 다시 시도해주세요."

/-- The per-turn result dict of `OptimizedTrafficAccidentBot.process_query`,
restricted to the fields with verifiable content (timings are wall-clock). -/
structure TurnResult where
  category : String
  response : String
  contextUsed : Bool
  errorFlag : Bool
deriving DecidableEq

/-- Model of `OptimizedTrafficAccidentBot._generate_error_response`. -/
def generateErrorResponse (_userInput errMsg : String) : TurnResult :=
  { category := "general",
    response := "죄송합니다. 일시적으로 시스템에 문제가 발생했습니다.\n\n**오류 상황**: "
      ++ strTake errMsg 100
      ++ "...\n\n**해결 방법**:\n1. 잠시 후 다시 시도해주세요\n2. 질문을 더 구체적으로 작성해주세요\n3. 계속 문제가 발생하면 새 채팅을 시작해주세요\n\n**예시 질문**:\n- \"교차로에서 좌회전 중 사고가 났어요\"\n- \"도로교통법 제5조 내용은?\"\n- \"과실비율이 무엇인가요?\"\n\n다시 도움을 드릴 수 있도록 최선을 다하겠습니다.",
    contextUsed := false,
    errorFlag := true }

/-- Instrumentation of one `process_query` turn: the retrieved context, how
often the chat model was invoked, and with which input. -/
structure TurnTrace where
  context : String
  chatCalls : Nat
  chatInput : Option String

/-- Environment of the orchestrator.  `sessionOk = false` injects an exception
at the `get_or_create_chain` step, which the outer `try` of `process_query`
turns into the error response; the chat oracle models `chain.predict`, whose
failures are caught by the inner `try` and answered with the canned fallback. -/
structure BotEnv where
  classifier : ClassifierEnv
  rag : RagEnv
  chat : String → Except Unit String
  sessionOk : Bool

/-- Model of `OptimizedTrafficAccidentBot.process_query`: classify, retrieve
(mutating the retrieval cache), then a single `chain.predict` call on the
user input with the first 200 characters of a non-empty context appended. -/
def processQuery (env : BotEnv) (cache : Cache) (userInput _sessionId : String) :
    TurnResult × TurnTrace × Cache :=
  let category := (classify env.classifier userInput).1
  let searched := searchContext env.rag cache userInput category 2
  let context := searched.1
  if env.sessionOk then
    let enhancedInput :=
      if context ≠ "" then userInput ++ "\n\n[참고자료: " ++ strTake context 200 ++ "]"
      else userInput
    let rawResponse :=
      match env.chat enhancedInput with
      | .ok r => r
      | .error _ => quickFallbackResponse userInput category context
    ({ category := category, response := strStrip rawResponse,
       contextUsed := context ≠ "", errorFlag := false },
     { context := context, chatCalls := 1, chatInput := some enhancedInput },
     searched.2)
  else
    (generateErrorResponse userInput "",
     { context := context, chatCalls := 0, chatInput := none },
     searched.2)

/-!  ## Specification-side definitions and concrete fixtures  -/

/-- Hangul-syllable test (U+AC00 to U+D7A3). -/
def isHangulChar (c : Char) : Bool := 0xAC00 ≤ c.toNat && c.toNat ≤ 0xD7A3

/-- Modelled from the spec (§3 Citation): normalization removes whitespace,
case-folds, and strips characters that are neither alphanumeric nor hangul.
This is the spec's normal form, against which the implementation's
`_is_exact_case_match` is compared. -/
def specNormalize (s : String) : String :=
  ⟨((strLower s).data.filter (fun c => !c.isWhitespace)).filter
      (fun c => c.isAlphanum || isHangulChar c)⟩

/-- The high-confidence rule of `FastClassifier.classify` as a predicate on the
query: some keyword category scored, with `confidence ≥ 0.65` and
`max_score ≥ 4`. -/
def highKeywordConfidence (q : String) : Prop :=
  match pyMax (calculateKeywordScores (strLower q)) with
  | some best =>
      confidenceHigh best.2 (((calculateKeywordScores (strLower q)).map Prod.snd).sum) ∧
        4 ≤ best.2
  | none => False

instance (q : String) : Decidable (highKeywordConfidence q) :=
  match hp : pyMax (calculateKeywordScores (strLower q)) with
  | some best =>
      decidable_of_iff
        (confidenceHigh best.2 (((calculateKeywordScores (strLower q)).map Prod.snd).sum) ∧
          4 ≤ best.2)
        (by simp only [highKeywordConfidence, hp])
  | none => decidable_of_iff False (by simp only [highKeywordConfidence, hp])

/-- Retrieval environment in which every external call raises. -/
def failRag : RagEnv := ⟨fun _ _ _ => .error (), fun _ _ => .error ()⟩

/-- Retrieval environment in which the vector store is reachable but empty. -/
def emptyRag : RagEnv := ⟨fun _ _ _ => .ok [], fun _ _ => .ok []⟩

/-- A single stub document used by the concrete retrieval fixtures. -/
def stubDoc : Doc := ⟨"표준 문서 내용", []⟩

/-- Retrieval environment whose direct search always returns `stubDoc` and
whose self-query retriever always raises. -/
def stubRag : RagEnv := ⟨fun _ _ _ => .ok [stubDoc], fun _ _ => .error ()⟩

/-- Orchestrator fixture for the sentinel path: empty vector store, healthy
chat model, no fine-tuned classifier. -/
def c1Env : BotEnv :=
  { classifier := ⟨false, fun _ => .error ()⟩,
    rag := emptyRag,
    chat := fun _ => .ok "모범 답변",
    sessionOk := true }

/-- Orchestrator fixture in which every retrieval call raises. -/
def c9Env : BotEnv :=
  { classifier := ⟨false, fun _ => .error ()⟩,
    rag := failRag,
    chat := fun _ => .ok "응답",
    sessionOk := true }

/-- Orchestrator fixture in which the chat model always raises. -/
def c9ChatFailEnv : BotEnv :=
  { classifier := ⟨false, fun _ => .error ()⟩,
    rag := stubRag,
    chat := fun _ => .error (),
    sessionOk := true }

/-- Orchestrator fixture in which the session-chain step raises. -/
def c9CrashEnv : BotEnv :=
  { classifier := ⟨false, fun _ => .error ()⟩,
    rag := stubRag,
    chat := fun _ => .ok "응답",
    sessionOk := false }

/-- Retrieval environment whose direct search returns three distinct documents
(reachable with `max_docs = 2`, since direct search requests `2 * max_docs`). -/
def c4Env : RagEnv :=
  ⟨fun _ _ _ => .ok [⟨"가", []⟩, ⟨"나", []⟩, ⟨"다", []⟩], fun _ _ => .error ()⟩

/-- The retrieval cache reached by 101 searches with distinct queries against
the stub store, starting from the empty cache. -/
def c6FinalCache : Cache :=
  ((List.range 101).map (fun i => toString i)).foldl
    (fun c q => (searchContext stubRag c q "term" 2).2) []

/-- A concrete full cache: 100 distinct entries. -/
def fullCache : Cache := (List.range 100).map (fun i => (("term", toString i), "값"))

/-!  ## Helper lemmas  -/

/-- The boolean infix test agrees with `List.IsInfix`. -/
theorem infixB_iff (xs ys : List Char) : infixB xs ys = true ↔ xs <:+: ys := by
  induction ys with
  | nil => simp [infixB, List.isPrefixOf_iff_prefix, List.infix_nil, List.prefix_nil]
  | cons y ys ih =>
      simp [infixB, Bool.or_eq_true, List.isPrefixOf_iff_prefix, ih, List.infix_cons_iff]

/-- The running maximum of the Python `max` fold is the seed or a list element. -/
theorem pyMax_foldl_mem (xs : List (String × Nat)) (a : String × Nat) :
    xs.foldl (fun acc p => if acc.2 < p.2 then p else acc) a = a ∨
      xs.foldl (fun acc p => if acc.2 < p.2 then p else acc) a ∈ xs := by
  induction xs generalizing a with
  | nil => simp
  | cons x xs ih =>
      simp only [List.foldl_cons]
      rcases ih (if a.2 < x.2 then x else a) with h | h
      · rw [h]
        by_cases hx : a.2 < x.2
        · simp [hx]
        · simp [hx]
      · right
        exact List.mem_cons_of_mem _ h

/-- A `pyMax` result is an element of its input list. -/
theorem pyMax_mem {l : List (String × Nat)} {p : String × Nat} (h : pyMax l = some p) :
    p ∈ l := by
  cases l with
  | nil => simp [pyMax] at h
  | cons x xs =>
      simp only [pyMax, Option.some.injEq] at h
      rw [← h]
      rcases pyMax_foldl_mem xs x with h2 | h2
      · rw [h2]; exact List.mem_cons_self x xs
      · exact List.mem_cons_of_mem _ h2

/-- `pyMax` returns `none` exactly on the empty score table. -/
theorem pyMax_eq_none {l : List (String × Nat)} : pyMax l = none ↔ l = [] := by
  cases l <;> simp [pyMax]

/-- Every scored entry carries one of the four keyword-table categories. -/
theorem scores_key {input : String} {p : String × Nat}
    (h : p ∈ calculateKeywordScores input) :
    p.1 = "accident" ∨ p.1 = "precedent" ∨ p.1 = "law" ∨ p.1 = "term" := by
  simp only [calculateKeywordScores, List.mem_filterMap] at h
  obtain ⟨a, ha, hfa⟩ := h
  have hkey : p.1 = a.1 := by
    by_cases h0 : 0 < patternScore a.2 input
    · simp only [h0, if_true, Option.some.injEq] at hfa
      rw [← hfa]
    · simp [h0] at hfa
  simp only [keywordPatterns, List.mem_cons, List.not_mem_nil, or_false] at ha
  rcases ha with rfl | rfl | rfl | rfl <;> simp [hkey]

/-- The remote stage always answers inside the closed category set. -/
theorem remoteStage_mem (env : ClassifierEnv) (q : String) :
    (remoteStage env q).1 ∈ validCategories := by
  unfold remoteStage
  split
  · cases henv : env.remote q with
    | ok s =>
        simp only [henv]
        split
        · assumption
        · decide
    | error e => simp only [henv]; decide
  · decide

/-!  ## Claim theorems  -/

/-- C5: for every input string, `classify` returns an element of the closed
category set `{accident, precedent, law, term, general}`, whatever the remote
fine-tuned model answers or raises. -/
theorem c5_classifier_closure (env : ClassifierEnv) (q : String) :
    (classify env q).1 ∈ validCategories := by
  simp only [classify]
  cases hp : pyMax (calculateKeywordScores (strLower q)) with
  | none => exact remoteStage_mem env q
  | some best =>
      have hb := pyMax_mem hp
      split
      · rename_i b heq
        injection heq with heq2
        subst heq2
        split
        · rcases scores_key hb with h | h | h | h <;> simp [h, validCategories]
        · split
          · decide
          · exact remoteStage_mem env q
      · rename_i heq
        exact absurd heq (by simp)

/-- C7: the hybrid retriever runs its self-query branch exactly when at least
two category triggers occur in the query or the query is longer than 30
characters. -/
theorem c7_self_query_trigger (env : RagEnv) (q category : String) (maxDocs : Nat) :
    (hybridSearch env q category maxDocs).2 = true ↔
      2 ≤ triggerCount q category ∨ 30 < strLen q := by
  have hshape : (hybridSearch env q category maxDocs).2 = shouldUseSelfQuery q category := by
    unfold hybridSearch
    cases h : shouldUseSelfQuery q category
    · simp [h]
    · simp only [h, if_true]
      split <;> rfl
  rw [hshape]
  simp [shouldUseSelfQuery, Bool.or_eq_true, decide_eq_true_iff]

/-- C10: when a case number is detected in a precedent query, `search_context`
neither writes the per-query cache nor depends on its contents: the precedent
gate answers before the cache is consulted. -/
theorem c10_precedent_gate_cache_frame (env : RagEnv) (cache cache2 : Cache) (q : String)
    (maxDocs : Nat) (cn : String) (h : extractCaseNumber q = some cn) :
    (searchContext env cache q "precedent" maxDocs).2 = cache ∧
      (searchContext env cache q "precedent" maxDocs).1 =
        (searchContext env cache2 q "precedent" maxDocs).1 := by
  unfold searchContext
  cases hs : searchExactPrecedent env cn q <;> simp [h, hs]

/-- Witness for C10 at a concrete precedent query with an extractable case
number. -/
theorem c10_precedent_gate_cache_frame_witness :
    extractCaseNumber "대법원 2019다12345 판례 내용" = some "대법원 2019다12345" ∧
      (searchContext failRag fullCache "대법원 2019다12345 판례 내용" "precedent" 2).2 =
        fullCache :=
  ⟨by decide,
   (c10_precedent_gate_cache_frame failRag fullCache [] "대법원 2019다12345 판례 내용" 2
      "대법원 2019다12345" (by decide)).1⟩

/-- The context-carry step of `classify_with_context` never changes the
remote-call count. -/
theorem classifyWithContext_snd (env : ClassifierEnv) (q : String) (prev : Option String) :
    (classifyWithContext env q prev).2 = (classify env q).2 := by
  simp only [classifyWithContext]
  cases prev with
  | none => rfl
  | some p =>
      repeat' split
      all_goals rfl

/-- Remote-call count of the fine-tuned-model stage. -/
theorem remoteStage_snd (env : ClassifierEnv) (q : String) :
    (remoteStage env q).2 =
      (if env.configured = true ∧ 10 < strLen (strStrip q) then 1 else 0) := by
  simp only [remoteStage]
  split
  · cases env.remote q <;> rfl
  · rfl

/-- Remote-call count of `classify`: the fine-tuned model is consulted exactly
when no keyword scored at all, the model id is configured, and the stripped
query is longer than 10 characters. -/
theorem classify_snd (env : ClassifierEnv) (q : String) :
    (classify env q).2 =
      (if calculateKeywordScores (strLower q) = [] ∧ env.configured = true ∧
          10 < strLen (strStrip q) then 1 else 0) := by
  simp only [classify]
  cases hp : pyMax (calculateKeywordScores (strLower q)) with
  | none =>
      have hempty : calculateKeywordScores (strLower q) = [] := pyMax_eq_none.mp hp
      simp only [hempty, true_and]
      rw [remoteStage_snd]
  | some best =>
      have hne : calculateKeywordScores (strLower q) ≠ [] := by
        intro he
        rw [he] at hp
        simp [pyMax] at hp
      rw [if_neg (by intro h; exact hne h.1)]
      split
      · rename_i b heq
        injection heq with heq2
        subst heq2
        split
        · rfl
        · split
          · rfl
          · rename_i h1 h2
            exfalso
            push_neg at h2
            exact h1 ⟨h2.1, h2.2⟩
      · rename_i heq
        exact absurd heq (by simp)

/-- C2 counterexample input: a query with a weak keyword score (`법` alone, so
`max_score = 1 < 4`), no previous category, a configured fine-tuned model and
more than 10 characters.  The claim demands one remote call; the code returns
`general` with zero remote calls because the remote stage is unreachable when
any keyword scored. -/
theorem c2_counterexample :
    calculateKeywordScores (strLower "법나나나나나나나나나나") = [("law", 1)] ∧
      10 < strLen (strStrip "법나나나나나나나나나나") ∧
      classifyWithContext ⟨true, fun _ => .ok "accident"⟩ "법나나나나나나나나나나" none =
        ("general", 0) :=
  ⟨by decide, by decide, by decide⟩

/-- C2 amended: the remote fine-tuned classifier is called exactly when the
keyword scorer found no keyword at all, the model is configured and the
stripped query is longer than 10 characters; whenever some keyword scored but
the high-confidence rule fails, `classify` returns `general` without any
remote call. -/
theorem c2_remote_call_characterization (env : ClassifierEnv) (q : String)
    (prev : Option String) :
    (classifyWithContext env q prev).2 =
      (if calculateKeywordScores (strLower q) = [] ∧ env.configured = true ∧
          10 < strLen (strStrip q) then 1 else 0) ∧
    (calculateKeywordScores (strLower q) ≠ [] → ¬ highKeywordConfidence q →
      (classify env q).1 = "general" ∧ (classify env q).2 = 0) := by
  constructor
  · rw [classifyWithContext_snd, classify_snd]
  · intro hne hlow
    simp only [classify]
    cases hp : pyMax (calculateKeywordScores (strLower q)) with
    | none => exact absurd (pyMax_eq_none.mp hp) hne
    | some best =>
        simp only [highKeywordConfidence, hp] at hlow
        have hor : ¬ confidenceHigh best.2
            (((calculateKeywordScores (strLower q)).map Prod.snd).sum) ∨ best.2 < 4 := by
          by_cases hc : confidenceHigh best.2
              (((calculateKeywordScores (strLower q)).map Prod.snd).sum)
          · right
            by_contra hlt
            exact hlow ⟨hc, Nat.not_lt.mp hlt⟩
          · left
            exact hc
        split
        · rename_i b heq
          injection heq with heq2
          subst heq2
          rw [if_neg hlow, if_pos hor]
          exact ⟨rfl, rfl⟩
        · rename_i heq
          exact absurd heq (by simp)

/-- Witness for C2 at a concrete configured environment and keyword-free
query (remote call made) and at the counterexample query (no call). -/
theorem c2_remote_call_characterization_witness :
    (classifyWithContext ⟨true, fun _ => .ok "accident"⟩ "ㅎㅎㅎㅎㅎㅎㅎㅎㅎㅎㅎㅎ" none).2 = 1 ∧
      classify ⟨true, fun _ => .ok "accident"⟩ "법나나나나나나나나나나" =
        ("general", 0) := by
  constructor
  · rw [(c2_remote_call_characterization ⟨true, fun _ => .ok "accident"⟩
      "ㅎㅎㅎㅎㅎㅎㅎㅎㅎㅎㅎㅎ" none).1]
    decide
  · have h := (c2_remote_call_characterization ⟨true, fun _ => .ok "accident"⟩
      "법나나나나나나나나나나" none).2 (by decide) (by decide)
    exact Prod.ext h.1 h.2

/-- Exact-citation test of the implementation, characterized: both citations
non-empty, and the whitespace-stripped lowercased forms equal or one
containing the other. -/
theorem isExactCaseMatch_iff (a b : String) :
    isExactCaseMatch a b = true ↔
      a ≠ "" ∧ b ≠ "" ∧
        (cleanCase a = cleanCase b ∨ (cleanCase a).data <:+: (cleanCase b).data ∨
          (cleanCase b).data <:+: (cleanCase a).data) := by
  unfold isExactCaseMatch
  by_cases hab : (a == "" || b == "") = true
  · rw [if_pos hab]
    simp only [Bool.or_eq_true, beq_iff_eq] at hab
    simp only [Bool.false_eq_true, false_iff]
    rintro ⟨ha, hb, -⟩
    rcases hab with h | h
    exacts [absurd h ha, absurd h hb]
  · rw [if_neg hab]
    simp only [Bool.or_eq_true, beq_iff_eq, not_or] at hab
    obtain ⟨ha, hb⟩ := hab
    by_cases h1 : (cleanCase a == cleanCase b) = true
    · rw [if_pos h1]
      simp only [beq_iff_eq] at h1
      simp only [true_iff]
      exact ⟨ha, hb, Or.inl h1⟩
    · rw [if_neg h1]
      simp only [beq_iff_eq] at h1
      by_cases h2 : (infixB (cleanCase a).data (cleanCase b).data ||
          infixB (cleanCase b).data (cleanCase a).data) = true
      · rw [if_pos h2]
        simp only [Bool.or_eq_true, infixB_iff] at h2
        simp only [true_iff]
        exact ⟨ha, hb, Or.inr h2⟩
      · rw [if_neg h2]
        simp only [Bool.or_eq_true, infixB_iff, not_or] at h2
        simp only [Bool.false_eq_true, false_iff]
        rintro ⟨-, -, h3 | h3 | h3⟩
        exacts [absurd h3 h1, absurd h3 h2.1, absurd h3 h2.2]

/-- Partial-citation test of the implementation, characterized: both citations
non-empty and the extracted case-number cores equal case-insensitively. -/
theorem isPartialCaseMatch_iff (a b : String) :
    isPartialCaseMatch a b = true ↔
      a ≠ "" ∧ b ≠ "" ∧ ∃ ca cb, searchCore a.data = some ca ∧
        searchCore b.data = some cb ∧ ca.map Char.toLower = cb.map Char.toLower := by
  unfold isPartialCaseMatch
  by_cases hab : (a == "" || b == "") = true
  · rw [if_pos hab]
    simp only [Bool.or_eq_true, beq_iff_eq] at hab
    simp only [Bool.false_eq_true, false_iff]
    rintro ⟨ha, hb, -⟩
    rcases hab with h | h
    exacts [absurd h ha, absurd h hb]
  · rw [if_neg hab]
    simp only [Bool.or_eq_true, beq_iff_eq, not_or] at hab
    obtain ⟨ha, hb⟩ := hab
    cases hca : searchCore a.data with
    | none =>
        simp only [hca]
        simp only [Bool.false_eq_true, false_iff]
        rintro ⟨-, -, ca, cb, hca2, -, -⟩
        exact Option.noConfusion hca2
    | some ca =>
        cases hcb : searchCore b.data with
        | none =>
            simp only [hca, hcb]
            simp only [Bool.false_eq_true, false_iff]
            rintro ⟨-, -, ca2, cb2, -, hcb2, -⟩
            exact Option.noConfusion hcb2
        | some cb =>
            simp only [hca, hcb, beq_iff_eq]
            constructor
            · intro h
              exact ⟨ha, hb, ca, cb, rfl, rfl, h⟩
            · rintro ⟨-, -, ca2, cb2, hca2, hcb2, h⟩
              injection hca2 with e1
              injection hcb2 with e2
              rw [e1, e2]
              exact h

/-- C3 counterexample: `_is_exact_case_match` accepts strict containment, so
the claimed equivalence with equality of spec-normalized forms fails:
`2019다12345` exactly matches `대법원2019다12345` although their normalized
forms differ. -/
theorem c3_counterexample :
    isExactCaseMatch "2019다12345" "대법원2019다12345" = true ∧
      specNormalize "2019다12345" ≠ specNormalize "대법원2019다12345" :=
  ⟨by decide, by decide⟩

/-- C3 amended: two citations match exactly iff both are non-empty and their
whitespace-stripped lowercased forms are equal or one contains the other (no
stripping of non-alphanumeric characters); they match partially iff both
contain a `\d{2,4}[chamber]\d+` core and the cores are equal
case-insensitively (not containment). -/
theorem c3_match_characterization (a b : String) :
    (isExactCaseMatch a b = true ↔
      a ≠ "" ∧ b ≠ "" ∧
        (cleanCase a = cleanCase b ∨ (cleanCase a).data <:+: (cleanCase b).data ∨
          (cleanCase b).data <:+: (cleanCase a).data)) ∧
    (isPartialCaseMatch a b = true ↔
      a ≠ "" ∧ b ≠ "" ∧ ∃ ca cb, searchCore a.data = some ca ∧
        searchCore b.data = some cb ∧ ca.map Char.toLower = cb.map Char.toLower) :=
  ⟨isExactCaseMatch_iff a b, isPartialCaseMatch_iff a b⟩

/-- C8 counterexample: reflexivity of `_is_exact_case_match` fails on the
empty citation, which the guard clause rejects. -/
theorem c8_counterexample : isExactCaseMatch "" "" = false := by decide

/-- C8 amended: `_is_exact_case_match` is reflexive on every non-empty
citation, and symmetric on all citations. -/
theorem c8_exact_match_props (a b : String) :
    (a ≠ "" → isExactCaseMatch a a = true) ∧
      isExactCaseMatch a b = isExactCaseMatch b a := by
  have key : ∀ x y : String, isExactCaseMatch x y = true → isExactCaseMatch y x = true := by
    intro x y hxy
    obtain ⟨hx, hy, h3⟩ := (isExactCaseMatch_iff x y).mp hxy
    refine (isExactCaseMatch_iff y x).mpr ⟨hy, hx, ?_⟩
    rcases h3 with h | h | h
    exacts [Or.inl h.symm, Or.inr (Or.inr h), Or.inr (Or.inl h)]
  constructor
  · intro ha
    exact (isExactCaseMatch_iff a a).mpr ⟨ha, ha, Or.inl rfl⟩
  · cases hab : isExactCaseMatch a b <;> cases hba : isExactCaseMatch b a
    · rfl
    · exact absurd (key b a hba) (by simp [hab])
    · exact absurd (key a b hab) (by simp [hba])
    · rfl

/-- Witness for C8 on concrete citations. -/
theorem c8_exact_match_props_witness :
    isExactCaseMatch "2019다12345" "2019다12345" = true ∧
      isExactCaseMatch "2019다12345" "92도2077" = isExactCaseMatch "92도2077" "2019다12345" :=
  ⟨(c8_exact_match_props "2019다12345" "92도2077").1 (by decide),
   (c8_exact_match_props "2019다12345" "92도2077").2⟩

/-- De-duplication returns a sublist of its input. -/
theorem dedupByKey_sublist (seen : List String) (l : List Doc) :
    (dedupByKey seen l).Sublist l := by
  induction l generalizing seen with
  | nil => simp [dedupByKey]
  | cons d ds ih =>
      simp only [dedupByKey]
      split
      · exact (ih seen).cons d
      · exact (ih _).cons₂ d

/-- Keys of the de-duplicated list are distinct and avoid the seen set. -/
theorem dedupByKey_keys (seen : List String) (l : List Doc) :
    ((dedupByKey seen l).map (fun d => strTake d.pageContent 100)).Nodup ∧
      ∀ d ∈ dedupByKey seen l, strTake d.pageContent 100 ∉ seen := by
  induction l generalizing seen with
  | nil => simp [dedupByKey]
  | cons d ds ih =>
      simp only [dedupByKey]
      split
      · exact ⟨(ih seen).1, (ih seen).2⟩
      · rename_i hseen
        have hns : strTake d.pageContent 100 ∉ seen := fun hmem =>
          hseen (List.elem_iff.mpr hmem)
        constructor
        · simp only [List.map_cons, List.nodup_cons]
          constructor
          · intro hmem
            obtain ⟨d2, hd2, he⟩ := List.mem_map.mp hmem
            have hnotin := (ih (strTake d.pageContent 100 :: seen)).2 d2 hd2
            exact hnotin (by rw [he]; exact List.mem_cons_self _ _)
          · exact (ih _).1
        · intro d2 hd2
          rcases List.mem_cons.mp hd2 with rfl | hd2
          · exact hns
          · have hnotin := (ih (strTake d.pageContent 100 :: seen)).2 d2 hd2
            exact fun hmem => hnotin (List.mem_cons_of_mem _ hmem)

/-- C4 counterexample: three distinct direct hits with the default
`max_docs = 2` produce a context of 3 snippets — the formatter caps at 3,
never at `max_docs`. -/
theorem c4_counterexample :
    (hybridSearch c4Env "질문" "term" 2).1 =
      String.intercalate "\n" (formatParts [⟨"가", []⟩, ⟨"나", []⟩, ⟨"다", []⟩] "term") ∧
      (formatParts [⟨"가", []⟩, ⟨"나", []⟩, ⟨"다", []⟩] "term").length = 3 :=
  ⟨by decide, by decide⟩

/-- C4 amended: merged results are self-query results followed by direct
results de-duplicated by the first 100 content characters; the formatted
context holds `min(|merged|, 3)` snippets — a hard cap of 3 independent of
`max_docs` — each with a content slice of at most 200 characters. -/
theorem c4_merge_format_bounds (directResults selfQueryResults : List Doc)
    (category : String) :
    (formatParts (combineSearchResults directResults selfQueryResults) category).length =
      min (combineSearchResults directResults selfQueryResults).length 3 ∧
    (combineSearchResults directResults selfQueryResults).Sublist
      (selfQueryResults ++ directResults) ∧
    ((combineSearchResults directResults selfQueryResults).map
      (fun d => strTake d.pageContent 100)).Nodup ∧
    ∀ d ∈ combineSearchResults directResults selfQueryResults,
      strLen (strTake d.pageContent 200) ≤ 200 := by
  refine ⟨?_, dedupByKey_sublist [] _, (dedupByKey_keys [] _).1, ?_⟩
  · simp only [formatParts, List.length_map, List.enum_length, List.length_take]
    exact Nat.min_comm _ _
  · intro d hd
    simp only [strLen, strTake, List.length_take]
    exact Nat.min_le_left _ _

/-- Witness for C4 on concrete document lists. -/
theorem c4_merge_format_bounds_witness :
    (formatParts (combineSearchResults [⟨"가", []⟩] [⟨"나", []⟩]) "law").length =
      min (combineSearchResults [⟨"가", []⟩] [⟨"나", []⟩]).length 3 ∧
      strLen (strTake (Doc.mk "가" []).pageContent 200) ≤ 200 :=
  ⟨(c4_merge_format_bounds [⟨"가", []⟩] [⟨"나", []⟩] "law").1,
   (c4_merge_format_bounds [⟨"가", []⟩] [⟨"나", []⟩] "law").2.2.2 ⟨"가", []⟩ (by decide)⟩

set_option maxRecDepth 100000 in
/-- C6 counterexample: after 101 distinct searches the cache holds the first
100 results; the 101st is dropped and the oldest entry is NOT evicted, so the
claimed FIFO eviction does not exist. -/
theorem c6_counterexample :
    c6FinalCache.length = 100 ∧
      List.lookup ("term", toString 100) c6FinalCache = none ∧
      List.lookup ("term", toString 0) c6FinalCache ≠ none :=
  ⟨by decide, by decide, by decide⟩

/-- C6 amended: the cache never exceeds 100 entries; when it is already at
(or beyond) the bound, a new result is simply not stored — the cache is
returned unchanged, and no entry is ever evicted. -/
theorem c6_cache_bound (env : RagEnv) (cache : Cache) (q category : String)
    (maxDocs : Nat) :
    (cache.length ≤ 100 → (searchContext env cache q category maxDocs).2.length ≤ 100) ∧
    (100 ≤ cache.length → (searchContext env cache q category maxDocs).2 = cache) := by
  have hmain : (cache.length ≤ 100 →
      (searchContextMain env cache q category maxDocs).2.length ≤ 100) ∧
      (100 ≤ cache.length → (searchContextMain env cache q category maxDocs).2 = cache) := by
    constructor
    · intro hle
      simp only [searchContextMain]
      split
      · exact hle
      · split
        · exact hle
        · split
          · rename_i hlt
            simp only [List.length_append, List.length_singleton]
            omega
          · exact hle
    · intro hge
      simp only [searchContextMain]
      split
      · rfl
      · split
        · rfl
        · split
          · rename_i hlt
            omega
          · rfl
  by_cases hcat : category = "precedent"
  · cases hext : extractCaseNumber q with
    | none =>
        have he : searchContext env cache q category maxDocs =
            searchContextMain env cache q category maxDocs := by
          unfold searchContext
          simp [hcat, hext]
        rw [he]
        exact hmain
    | some cn =>
        have h2 : (searchContext env cache q category maxDocs).2 = cache := by
          unfold searchContext
          cases hse : searchExactPrecedent env cn q <;> simp [hcat, hext, hse]
        exact ⟨fun h => by rw [h2]; exact h, fun _ => h2⟩
  · have he : searchContext env cache q category maxDocs =
        searchContextMain env cache q category maxDocs := by
      unfold searchContext
      simp [hcat]
    rw [he]
    exact hmain

/-- Witness for C6 at a concrete full cache. -/
theorem c6_cache_bound_witness :
    100 ≤ fullCache.length ∧
      (searchContext stubRag fullCache "새질문" "term" 2).2 = fullCache :=
  ⟨by simp [fullCache], (c6_cache_bound stubRag fullCache "새질문" "term" 2).2
    (by simp [fullCache])⟩

/-- A string with a non-empty boolean prefix is non-empty. -/
theorem ne_empty_of_startsWith {p s : String} (hp : p ≠ "")
    (h : strStartsWith p s = true) : s ≠ "" := by
  intro hs
  subst hs
  rw [strStartsWith, List.isPrefixOf_iff_prefix] at h
  have hnil := List.prefix_nil.mp h
  exact hp (String.ext hnil)

/-- C1 counterexample: with an empty precedent store, the retriever returns
the sentinel, yet `process_query` reports `context_used = true`, invokes the
chat model once (the sentinel is embedded in its input), and returns the chat
answer instead of the fixed citation-not-found response. -/
theorem c1_counterexample :
    strStartsWith "EXACT_PRECEDENT_NOT_FOUND:"
      (processQuery c1Env [] "대법원 9999다99999 판례 알려줘" "sess-B").2.1.context = true ∧
      (processQuery c1Env [] "대법원 9999다99999 판례 알려줘" "sess-B").1.contextUsed = true ∧
      (processQuery c1Env [] "대법원 9999다99999 판례 알려줘" "sess-B").2.1.chatCalls = 1 ∧
      (processQuery c1Env [] "대법원 9999다99999 판례 알려줘" "sess-B").1.response = "모범 답변" :=
  ⟨by decide, by decide, by decide, by decide⟩

/-- C1 amended: `process_query` never checks for the sentinel; a
sentinel-prefixed context is handled like any other non-empty context — it is
truncated to 200 characters, appended to the user input, sent to the chat
model in exactly one call, and reported with `context_used = true`. -/
theorem c1_sentinel_forwarded (env : BotEnv) (cache : Cache) (q sid : String)
    (hsession : env.sessionOk = true)
    (hctx : strStartsWith "EXACT_PRECEDENT_NOT_FOUND:"
      (searchContext env.rag cache q (classify env.classifier q).1 2).1 = true) :
    (processQuery env cache q sid).1.contextUsed = true ∧
      (processQuery env cache q sid).2.1.chatCalls = 1 ∧
      (processQuery env cache q sid).2.1.chatInput =
        some (q ++ "\n\n[참고자료: "
          ++ strTake (searchContext env.rag cache q (classify env.classifier q).1 2).1 200
          ++ "]") := by
  have hne : (searchContext env.rag cache q (classify env.classifier q).1 2).1 ≠ "" :=
    ne_empty_of_startsWith (by decide) hctx
  simp only [processQuery]
  rw [if_pos hsession, if_pos hne]
  exact ⟨decide_eq_true hne, rfl, rfl⟩

/-- Witness for C1 at the concrete fabricated-citation query. -/
theorem c1_sentinel_forwarded_witness :
    (processQuery c1Env [] "대법원 9999다99999 판례 알려줘" "sess-B").1.contextUsed = true ∧
      (processQuery c1Env [] "대법원 9999다99999 판례 알려줘" "sess-B").2.1.chatCalls = 1 ∧
      (processQuery c1Env [] "대법원 9999다99999 판례 알려줘" "sess-B").2.1.chatInput =
        some ("대법원 9999다99999 판례 알려줘" ++ "\n\n[참고자료: "
          ++ strTake (searchContext c1Env.rag [] "대법원 9999다99999 판례 알려줘"
              (classify c1Env.classifier "대법원 9999다99999 판례 알려줘").1 2).1 200
          ++ "]") :=
  c1_sentinel_forwarded c1Env [] "대법원 9999다99999 판례 알려줘" "sess-B" rfl (by decide)

/-- The hybrid search of a fully failing retrieval environment is empty. -/
theorem hybridSearch_fail (env : RagEnv) (q category : String) (maxDocs : Nat)
    (hv : ∀ a b k, env.vdbSearch a b k = .error ())
    (hs : ∀ a b, env.selfQuery a b = .error ()) :
    (hybridSearch env q category maxDocs).1 = "" := by
  have hd : directSearch env q category maxDocs = [] := by
    simp only [directSearch]
    split
    · rfl
    · simp [hv]
  have hsq : selfQuerySearch env q category maxDocs = [] := by
    simp [selfQuerySearch, hs]
  simp only [hybridSearch, hd, hsq]
  split <;> rfl

/-- Outside the precedent-citation gate, a fully failing retrieval environment
yields the empty context and an unchanged cache on a cache miss. -/
theorem searchContext_fail (env : RagEnv) (cache : Cache) (q category : String)
    (maxDocs : Nat)
    (hv : ∀ a b k, env.vdbSearch a b k = .error ())
    (hs : ∀ a b, env.selfQuery a b = .error ())
    (hlk : List.lookup (category, q) cache = none)
    (hgate : category ≠ "precedent" ∨ extractCaseNumber q = none) :
    (searchContext env cache q category maxDocs).1 = "" ∧
      (searchContext env cache q category maxDocs).2 = cache := by
  have hh := hybridSearch_fail env q category maxDocs hv hs
  have hmain : (searchContextMain env cache q category maxDocs).1 = "" ∧
      (searchContextMain env cache q category maxDocs).2 = cache := by
    constructor <;> simp [searchContextMain, hlk, hh]
  by_cases hcat : category = "precedent"
  · rcases hgate with h | hext
    · exact absurd hcat h
    · simp only [searchContext, if_pos hcat, hext]
      exact hmain
  · simp only [searchContext, if_neg hcat]
    exact hmain

/-- C9 amended: `process_query` always returns a result structure; a failing
store yields the empty context except in the precedent-citation path (where
the sentinel is produced instead, see the counterexample); a failing chat
model yields the category-specific canned fallback; an internal error at the
session-chain step yields the error response with its error flag set. -/
theorem c9_error_handling (env : BotEnv) (cache : Cache) (q sid : String) :
    ((∀ a b k, env.rag.vdbSearch a b k = .error ()) →
      (∀ a b, env.rag.selfQuery a b = .error ()) →
      List.lookup ((classify env.classifier q).1, q) cache = none →
      ((classify env.classifier q).1 ≠ "precedent" ∨ extractCaseNumber q = none) →
      (processQuery env cache q sid).2.1.context = "" ∧
        (processQuery env cache q sid).1.contextUsed = false) ∧
    (env.sessionOk = true → (∀ s, env.chat s = .error ()) →
      (processQuery env cache q sid).1.response =
        strStrip (quickFallbackResponse q (classify env.classifier q).1
          (searchContext env.rag cache q (classify env.classifier q).1 2).1)) ∧
    (env.sessionOk = false →
      (processQuery env cache q sid).1 = generateErrorResponse q "" ∧
        (processQuery env cache q sid).1.errorFlag = true) := by
  refine ⟨?_, ?_, ?_⟩
  · intro hv hs hlk hgate
    have hsc := searchContext_fail env.rag cache q (classify env.classifier q).1 2
      hv hs hlk hgate
    constructor
    · simp only [processQuery]
      split
      · exact hsc.1
      · exact hsc.1
    · simp only [processQuery]
      split
      · exact decide_eq_false (fun hne => hne hsc.1)
      · rfl
  · intro hsession hchat
    simp only [processQuery]
    rw [if_pos hsession]
    simp only [hchat]
  · intro hsession
    simp only [processQuery]
    rw [if_neg (by simp [hsession])]
    exact ⟨rfl, rfl⟩

/-- C9 counterexample: with every vector-store call failing, a precedent query
with a citation yields the non-empty sentinel as context (reported as
`context_used = true`), not the empty context the claim requires for
retrieval failures. -/
theorem c9_counterexample :
    strStartsWith "EXACT_PRECEDENT_NOT_FOUND:"
      (processQuery c9Env [] "대법원 2019다12345 판례" "sess").2.1.context = true ∧
      (processQuery c9Env [] "대법원 2019다12345 판례" "sess").2.1.context ≠ "" ∧
      (processQuery c9Env [] "대법원 2019다12345 판례" "sess").1.contextUsed = true :=
  ⟨by decide, by decide, by decide⟩

/-- Witness for C9: empty context under failing retrieval on a non-citation
query, canned fallback under a failing chat model, and the flagged error
response under a session-chain fault. -/
theorem c9_error_handling_witness :
    ((processQuery c9Env [] "과실비율이 뭐야" "s").2.1.context = "" ∧
      (processQuery c9Env [] "과실비율이 뭐야" "s").1.contextUsed = false) ∧
      (processQuery c9ChatFailEnv [] "안녕" "s").1.response =
        strStrip (quickFallbackResponse "안녕" (classify c9ChatFailEnv.classifier "안녕").1
          (searchContext c9ChatFailEnv.rag [] "안녕"
            (classify c9ChatFailEnv.classifier "안녕").1 2).1) ∧
      (processQuery c9CrashEnv [] "안녕" "s").1 = generateErrorResponse "안녕" "" :=
  ⟨(c9_error_handling c9Env [] "과실비율이 뭐야" "s").1 (fun _ _ _ => rfl) (fun _ _ => rfl)
      rfl (by decide),
   (c9_error_handling c9ChatFailEnv [] "안녕" "s").2.1 rfl (fun _ => rfl),
   ((c9_error_handling c9CrashEnv [] "안녕" "s").2.2 rfl).1⟩

end OptimizedAiBot
